import Mathlib

/-!
# Modem-event monitor of libnserial

A shallow embedding of the modem-event part of
`dll/serialunix/libnserial/modem.c` (lines 32-40 and 256-515), for the build in
which both `HAVE_TIOCMIWAIT` and `HAVE_LINUX_SERIAL_ICOUNTER_STRUCT` are defined.

* Event masks and `TIOCMGET` words are natural numbers used as bit sets.
* A function of C type `serialmodemevent_t` returns `Option Nat`: `none` is the
  C return value `-1`, `some m` is the mask `m`.
* Everything the kernel and the thread library answer is an explicit argument
  (`CycleEnv`, `WaitEnv`, `AbortEnv`): one field per call site, holding the
  answer of that call.
* The calls that lock, block, spawn, join or cancel are logged in `State.trace`.
-/

namespace NSerial

/-! ## Constants of the system headers (Linux values) -/

/-- Value of `EINTR` in the Linux errno table. -/
def EINTR : Int := 4

/-- Value of `EBADF` in the Linux errno table. -/
def EBADF : Int := 9

/-- Value of `EAGAIN` in the Linux errno table. -/
def EAGAIN : Int := 11

/-- Value of `EWOULDBLOCK`, the same number as `EAGAIN` on Linux. -/
def EWOULDBLOCK : Int := 11

/-- Value of `EINVAL` in the Linux errno table. -/
def EINVAL : Int := 22

/-- Value of `ESRCH`, the error number `pthread_cancel` answers for a thread it cannot find. -/
def ESRCH : Int := 3

/-- Bit of CTS in a `TIOCMGET` word. -/
def TIOCM_CTS : Nat := 0x020

/-- Bit of DCD in a `TIOCMGET` word. -/
def TIOCM_CAR : Nat := 0x040

/-- Bit of RI in a `TIOCMGET` word. -/
def TIOCM_RI : Nat := 0x080

/-- Bit of DSR in a `TIOCMGET` word. -/
def TIOCM_DSR : Nat := 0x100

/-! ## Declarations of headers that are not part of the sources at hand -/

/-- Modelled from the spec: the error kinds of `errmsg.h` (absent) that modem.c
records. `ERRMSG_OK` is the zero value, the one a zero-initialised `modemstate`
holds and the one `mstate.serialerror != 0` tests against. -/
inductive ErrMsg where
  | ERRMSG_OK
  | ERRMSG_INVALIDPARAMETER
  | ERRMSG_SERIALPORTNOTOPEN
  | ERRMSG_IOCTL
  | ERRMSG_NOSYS
  | ERRMSG_MUTEXLOCK
  | ERRMSG_MUTEXUNLOCK
  | ERRMSG_MODEMEVENT_RUNNING
  | ERRMSG_PTHREADCANCEL
  deriving DecidableEq, Repr

open ErrMsg

/-- Modelled from the spec: the empty event set of `nserial.h` (absent). -/
def MODEMEVENT_NONE : Nat := 0

/-- Modelled from the spec: the four event flags of `nserial.h` (absent), whose
numeric values the sources at hand do not give. They are parameters of the model. -/
structure EventBits where
  MODEMEVENT_DCD : Nat
  MODEMEVENT_RI : Nat
  MODEMEVENT_DSR : Nat
  MODEMEVENT_CTS : Nat
  deriving DecidableEq, Repr

/-- The four control lines a wait can be about. -/
inductive Line where
  | DCD
  | RI
  | DSR
  | CTS
  deriving DecidableEq, Repr

/-- Flag of a line. -/
def EventBits.flag (bits : EventBits) : Line → Nat
  | Line.DCD => bits.MODEMEVENT_DCD
  | Line.RI => bits.MODEMEVENT_RI
  | Line.DSR => bits.MODEMEVENT_DSR
  | Line.CTS => bits.MODEMEVENT_CTS

/-- The mask `MODEMEVENT_DCD | MODEMEVENT_RI | MODEMEVENT_DSR | MODEMEVENT_CTS`. -/
def EventBits.all (bits : EventBits) : Nat :=
  bits.MODEMEVENT_DCD ||| bits.MODEMEVENT_RI ||| bits.MODEMEVENT_DSR ||| bits.MODEMEVENT_CTS

/-- What "bitwise-combinable flags of four named signals" asks of the values:
every flag has a bit and no two flags share one. -/
def EventBits.WF (bits : EventBits) : Prop :=
  bits.MODEMEVENT_DCD ≠ 0 ∧ bits.MODEMEVENT_RI ≠ 0 ∧
  bits.MODEMEVENT_DSR ≠ 0 ∧ bits.MODEMEVENT_CTS ≠ 0 ∧
  bits.MODEMEVENT_DCD &&& bits.MODEMEVENT_RI = 0 ∧
  bits.MODEMEVENT_DCD &&& bits.MODEMEVENT_DSR = 0 ∧
  bits.MODEMEVENT_DCD &&& bits.MODEMEVENT_CTS = 0 ∧
  bits.MODEMEVENT_RI &&& bits.MODEMEVENT_DSR = 0 ∧
  bits.MODEMEVENT_RI &&& bits.MODEMEVENT_CTS = 0 ∧
  bits.MODEMEVENT_DSR &&& bits.MODEMEVENT_CTS = 0

instance (bits : EventBits) : Decidable bits.WF := by
  unfold EventBits.WF
  infer_instance

/-- The flags as powers of two, used for concrete runs. -/
def stdBits : EventBits := ⟨1, 2, 4, 8⟩

/-- A line is in a mask: the C test `mask & FLAG`. -/
def hasLine (bits : EventBits) (mask : Nat) (l : Line) : Bool :=
  decide (mask &&& bits.flag l ≠ 0)

/-! ## Data -/

/-- The four counters of `struct serial_icounter_struct` that modem.c reads. -/
structure serial_icounter_struct where
  cts : Int
  dsr : Int
  rng : Int
  dcd : Int
  deriving DecidableEq, Repr

/-- The initialiser `{0, }`. -/
def serial_icounter_struct.zero : serial_icounter_struct := ⟨0, 0, 0, 0⟩

/-- Counter of a line: dcd, rng, dsr, cts for DCD, RI, DSR, CTS. -/
def serial_icounter_struct.counter (c : serial_icounter_struct) : Line → Int
  | Line.DCD => c.dcd
  | Line.RI => c.rng
  | Line.DSR => c.dsr
  | Line.CTS => c.cts

/-- The record `struct modemstate` of one wait (its back pointer to the handle is
the handle the functions below work on). -/
structure modemstate where
  waitevent : Nat
  eventresult : Nat
  serialerror : ErrMsg
  posixerrno : Int
  deriving DecidableEq, Repr

/-- The initialiser `{0, }`. -/
def modemstate.zero : modemstate := ⟨0, MODEMEVENT_NONE, ERRMSG_OK, 0⟩

/-- The fields of `struct serialhandle` that modem.c touches: the descriptor, the
active-wait slot (a nullable pointer, here the record it points to), the thread
id, and the error kind kept by `serial_seterror`. -/
structure serialhandle where
  fd : Int
  modemstate : Option modemstate
  modemthread : Nat
  errmsg : ErrMsg
  deriving DecidableEq, Repr

/-- Library calls that lock, block, spawn, join or cancel. -/
inductive Op where
  | pthread_mutex_lock
  | pthread_mutex_unlock
  | pthread_create
  | pthread_join
  | pthread_cancel
  | ioctl_TIOCMIWAIT (signals : Nat)
  deriving DecidableEq, Repr

/-- What a call works on: the handle pointer (`none` is `NULL`), the `errno` of
the calling thread, and the log of library calls made so far. -/
structure State where
  handle : Option serialhandle
  errno : Int
  trace : List Op
  deriving DecidableEq, Repr

/-- The same with a handle known not to be `NULL`. -/
structure Ctx where
  handle : serialhandle
  errno : Int
  trace : List Op
  deriving DecidableEq, Repr

/-- Back to the caller's view. -/
def Ctx.toState (c : Ctx) : State := ⟨some c.handle, c.errno, c.trace⟩

/-- Modelled from the spec: `serial_seterror` (absent) records the error kind on the handle. -/
def serial_seterror (c : Ctx) (e : ErrMsg) : Ctx :=
  { c with handle := { c.handle with errmsg := e } }

/-- Answers of the kernel in one cycle of `waitformodemevent`, one per call site:
`none` in `icounter`, `ocounter` and the eight `TIOCMGET` words is a failed ioctl;
`tiocmiwait = none` is a successful wait and `some e` a failed one with errno `e`. -/
structure CycleEnv where
  icounter : Option serial_icounter_struct
  cts : Option Nat
  dsr : Option Nat
  dcd : Option Nat
  ri : Option Nat
  tiocmiwait : Option Int
  ocounter : Option serial_icounter_struct
  rcts : Option Nat
  rdsr : Option Nat
  rdcd : Option Nat
  rri : Option Nat
  deriving DecidableEq, Repr

/-- Where an asynchronous cancellation found a worker that none of its cycles
ended: `clean` before any write to the wait state, `afterSerialerror` between the
two writes of the fatal path (lines 301 and 302). A cancellation after line 302
or after line 373 leaves what the finished fatal or matching cycle leaves. -/
inductive CancelPoint where
  | clean
  | afterSerialerror
  deriving DecidableEq, Repr

/-- How a worker ended. -/
inductive ThreadExit where
  | matched
  | fatal
  | cancelled
  deriving DecidableEq, Repr

/-- Result of one call of `waitformodemevent`. -/
structure CycleResult where
  result : Option Nat
  mstate : modemstate
  ops : List Op
  deriving DecidableEq, Repr

/-- Result of a run of `modemeventthread`. -/
structure ThreadResult where
  mstate : modemstate
  ops : List Op
  exit : ThreadExit
  deriving DecidableEq, Repr

/-- Answers to one call of `serial_waitformodemevent`: the return values of the
thread-library calls in program order (`unlock1` is the one unlock that follows
the first lock, on whichever branch), the thread id, and the run of the worker:
its cycles, and where it is cancelled if no cycle ends it. -/
structure WaitEnv where
  lock1 : Int
  unlock1 : Int
  create : Int
  tid : Nat
  cycles : List CycleEnv
  cancel : CancelPoint
  join : Int
  lock2 : Int
  unlock2 : Int
  deriving DecidableEq, Repr

/-- Answers to one call of `serial_abortwaitformodemevent`. -/
structure AbortEnv where
  lock : Int
  unlock : Int
  cancel : Int
  deriving DecidableEq, Repr

/-! ## The functions of modem.c -/

/-- Lines 32-40. The first argument is the answer of `ioctl(fd, TIOCMGET, &serial)`;
the result is the return value and the new content of `*outsignal`. -/
def getmodemsignal (tiocmget : Option Nat) (signal : Nat) (outsignal : Int) : Int × Int :=
  match tiocmget with
  | none => (-1, outsignal)
  | some serial => (0, if serial &&& signal ≠ 0 then 1 else 0)

/-- The statement `if (cond && getmodemsignal(fd, signal, &v) == -1) v = -1;` on a
variable `v` that holds `-1` (lines 282-293 and 327-338): the value of `v` after it. -/
def sampleline (cond : Bool) (tiocmget : Option Nat) (signal : Nat) : Int :=
  if cond then
    let g := getmodemsignal tiocmget signal (-1)
    if g.1 = -1 then -1 else g.2
  else -1

/-- Lines 257-351: one wait cycle. -/
def waitformodemevent (bits : EventBits) (mstate : modemstate) (env : CycleEnv) : CycleResult :=
  let signals : Nat := 0
  let signals := if mstate.waitevent &&& bits.MODEMEVENT_DCD ≠ 0 then signals ||| TIOCM_CAR else signals
  let signals := if mstate.waitevent &&& bits.MODEMEVENT_RI ≠ 0 then signals ||| TIOCM_RI else signals
  let signals := if mstate.waitevent &&& bits.MODEMEVENT_DSR ≠ 0 then signals ||| TIOCM_DSR else signals
  let signals := if mstate.waitevent &&& bits.MODEMEVENT_CTS ≠ 0 then signals ||| TIOCM_CTS else signals
  let icounter := env.icounter.getD serial_icounter_struct.zero
  let icount : Bool := env.icounter.isSome
  let ctssignal := sampleline (decide (mstate.waitevent &&& bits.MODEMEVENT_CTS ≠ 0)) env.cts TIOCM_CTS
  let dsrsignal := sampleline (decide (mstate.waitevent &&& bits.MODEMEVENT_DSR ≠ 0)) env.dsr TIOCM_DSR
  let dcdsignal := sampleline (decide (mstate.waitevent &&& bits.MODEMEVENT_DCD ≠ 0)) env.dcd TIOCM_CAR
  let risignal := sampleline (decide (mstate.waitevent &&& bits.MODEMEVENT_RI ≠ 0)) env.ri TIOCM_RI
  let ops := [Op.ioctl_TIOCMIWAIT signals]
  match env.tiocmiwait with
  | some errno =>
    if errno = EAGAIN ∨ errno = EWOULDBLOCK ∨ errno = EINTR then
      ⟨some MODEMEVENT_NONE, mstate, ops⟩
    else
      ⟨none, { mstate with serialerror := ERRMSG_IOCTL, posixerrno := errno }, ops⟩
  | none =>
    let ocounter := if icount then env.ocounter.getD serial_icounter_struct.zero
      else serial_icounter_struct.zero
    let icount := if icount && env.ocounter.isNone then false else icount
    let rsignals : Nat := MODEMEVENT_NONE
    let rsignals :=
      if icount then
        let rsignals := if ocounter.cts ≠ icounter.cts then rsignals ||| bits.MODEMEVENT_CTS else rsignals
        let rsignals := if ocounter.dsr ≠ icounter.dsr then rsignals ||| bits.MODEMEVENT_DSR else rsignals
        let rsignals := if ocounter.rng ≠ icounter.rng then rsignals ||| bits.MODEMEVENT_RI else rsignals
        let rsignals := if ocounter.dcd ≠ icounter.dcd then rsignals ||| bits.MODEMEVENT_DCD else rsignals
        rsignals
      else
        let rctssignal := sampleline (decide (ctssignal ≠ -1)) env.rcts TIOCM_CTS
        let rdsrsignal := sampleline (decide (dsrsignal ≠ -1)) env.rdsr TIOCM_DSR
        let rdcdsignal := sampleline (decide (dcdsignal ≠ -1)) env.rdcd TIOCM_CAR
        let rrisignal := sampleline (decide (risignal ≠ -1)) env.rri TIOCM_RI
        let rsignals := if rctssignal ≠ -1 ∧ ctssignal ≠ -1 then
          rsignals ||| (if rctssignal ≠ ctssignal then bits.MODEMEVENT_CTS else MODEMEVENT_NONE) else rsignals
        let rsignals := if rdsrsignal ≠ -1 ∧ dsrsignal ≠ -1 then
          rsignals ||| (if rdsrsignal ≠ dsrsignal then bits.MODEMEVENT_DSR else MODEMEVENT_NONE) else rsignals
        let rsignals := if rdcdsignal ≠ -1 ∧ dcdsignal ≠ -1 then
          rsignals ||| (if rdcdsignal ≠ dcdsignal then bits.MODEMEVENT_DCD else MODEMEVENT_NONE) else rsignals
        let rsignals := if rrisignal ≠ -1 ∧ risignal ≠ -1 then
          rsignals ||| (if rrisignal ≠ risignal then bits.MODEMEVENT_RI else MODEMEVENT_NONE) else rsignals
        rsignals
    ⟨some (rsignals &&& mstate.waitevent), mstate, ops⟩

/-- Lines 353-378: the worker loop over the cycles the kernel gives it. A cycle
that returns `-1` or a non-empty mask ends the thread; when no cycle does, the
thread ends by cancellation at `cancel`, inside a further cycle. The log holds
the blocking waits that returned, not the one a cancellation interrupts. -/
def modemeventthread (bits : EventBits) (mstate : modemstate) :
    List CycleEnv → CancelPoint → ThreadResult
  | [], CancelPoint.clean => ⟨mstate, [], ThreadExit.cancelled⟩
  | [], CancelPoint.afterSerialerror =>
    ⟨{ mstate with serialerror := ERRMSG_IOCTL }, [], ThreadExit.cancelled⟩
  | c :: cs, cancel =>
    let r := waitformodemevent bits mstate c
    match r.result with
    | none => ⟨{ r.mstate with eventresult := MODEMEVENT_NONE }, r.ops, ThreadExit.fatal⟩
    | some result =>
      if result ≠ MODEMEVENT_NONE then
        ⟨{ r.mstate with eventresult := result }, r.ops, ThreadExit.matched⟩
      else
        let t := modemeventthread bits r.mstate cs cancel
        ⟨t.mstate, r.ops ++ t.ops, t.exit⟩

/-- Lines 381-390. The first argument is the return value of `pthread_mutex_lock`. -/
def entercritsection (ret : Int) (c : Ctx) : Int × Ctx :=
  let c := { c with trace := c.trace ++ [Op.pthread_mutex_lock] }
  if ret = -1 then (-1, serial_seterror c ERRMSG_MUTEXLOCK) else (0, c)

/-- Lines 392-401. The first argument is the return value of `pthread_mutex_unlock`. -/
def exitcritsection (ret : Int) (c : Ctx) : Int × Ctx :=
  let c := { c with trace := c.trace ++ [Op.pthread_mutex_unlock] }
  if ret = -1 then (-1, serial_seterror c ERRMSG_MUTEXUNLOCK) else (0, c)

/-- Lines 403-486. -/
def serial_waitformodemevent (bits : EventBits) (env : WaitEnv) (s : State) (event : Nat) :
    Option Nat × State :=
  match s.handle with
  | none => (none, { s with errno := EINVAL })
  | some h =>
    let c : Ctx := ⟨h, s.errno, s.trace⟩
    if c.handle.fd = -1 then
      (none, ({ serial_seterror c ERRMSG_SERIALPORTNOTOPEN with errno := EBADF }).toState)
    else
      let e1 := entercritsection env.lock1 c
      if e1.1 ≠ 0 then (none, e1.2.toState)
      else
        let c := e1.2
        if c.handle.modemstate.isSome then
          let c := (exitcritsection env.unlock1 c).2
          let c := serial_seterror c ERRMSG_MODEMEVENT_RUNNING
          (none, ({ c with errno := EINVAL }).toState)
        else if event &&& bits.all = 0 then
          let x := exitcritsection env.unlock1 c
          if x.1 ≠ 0 then (none, x.2.toState) else (some MODEMEVENT_NONE, x.2.toState)
        else
          let mstate : modemstate := { modemstate.zero with waitevent := event }
          let c := { c with handle := { c.handle with modemstate := some mstate } }
          let x := exitcritsection env.unlock1 c
          if x.1 ≠ 0 then (none, x.2.toState)
          else
            let c := x.2
            let result : Int := env.create
            let c := { c with trace := c.trace ++ [Op.pthread_create] }
            let c := if result = 0 then
              { c with handle := { c.handle with modemthread := env.tid } } else c
            let t := modemeventthread bits mstate env.cycles env.cancel
            let mstate := if result = 0 then t.mstate else mstate
            let c := if result = 0 then { c with trace := c.trace ++ t.ops ++ [Op.pthread_join] } else c
            let result := if result = 0 then env.join else result
            let c := if result = 0 ∧ mstate.serialerror ≠ ERRMSG_OK then
              serial_seterror { c with errno := mstate.posixerrno } mstate.serialerror else c
            let result := if result = 0 ∧ mstate.serialerror ≠ ERRMSG_OK then -1 else result
            let e2 := entercritsection env.lock2 c
            let result := if e2.1 ≠ 0 then -1 else result
            let c := { e2.2 with handle := { e2.2.handle with modemstate := none } }
            let x2 := exitcritsection env.unlock2 c
            let result := if x2.1 ≠ 0 then -1 else result
            if result = 0 then (some (mstate.eventresult &&& event), x2.2.toState)
            else (none, x2.2.toState)

/-- Lines 488-515. The result is the C return value, `0` or `-1`. -/
def serial_abortwaitformodemevent (env : AbortEnv) (s : State) : Int × State :=
  match s.handle with
  | none => (-1, { s with errno := EINVAL })
  | some h =>
    let c : Ctx := ⟨h, s.errno, s.trace⟩
    if c.handle.fd = -1 then
      (-1, ({ serial_seterror c ERRMSG_SERIALPORTNOTOPEN with errno := EBADF }).toState)
    else
      let e := entercritsection env.lock c
      if e.1 ≠ 0 then (-1, e.2.toState)
      else
        let c := e.2
        let active : Bool := c.handle.modemstate.isSome
        let c := (exitcritsection env.unlock c).2
        if !active then (0, c.toState)
        else
          let c := { c with trace := c.trace ++ [Op.pthread_cancel] }
          let result : Int := env.cancel
          if result = -1 then (-1, (serial_seterror c ERRMSG_PTHREADCANCEL).toState)
          else (0, c.toState)

/-! ## Definitions used to state the properties -/

/-- Mask of the lines that satisfy `p`, built the way lines 316-321 build `rsignals`. -/
def maskOf (bits : EventBits) (p : Line → Bool) : Nat :=
  let r : Nat := MODEMEVENT_NONE
  let r := if p Line.CTS then r ||| bits.MODEMEVENT_CTS else r
  let r := if p Line.DSR then r ||| bits.MODEMEVENT_DSR else r
  let r := if p Line.RI then r ||| bits.MODEMEVENT_RI else r
  let r := if p Line.DCD then r ||| bits.MODEMEVENT_DCD else r
  r

/-- The `TIOCMGET` bit of a line. -/
def TIOCM : Line → Nat
  | Line.DCD => TIOCM_CAR
  | Line.RI => TIOCM_RI
  | Line.DSR => TIOCM_DSR
  | Line.CTS => TIOCM_CTS

/-- The `TIOCMGET` answer at the call site that samples a line before blocking. -/
def CycleEnv.pre (env : CycleEnv) : Line → Option Nat
  | Line.DCD => env.dcd
  | Line.RI => env.ri
  | Line.DSR => env.dsr
  | Line.CTS => env.cts

/-- The `TIOCMGET` answer at the call site that samples a line after waking. -/
def CycleEnv.post (env : CycleEnv) : Line → Option Nat
  | Line.DCD => env.rdcd
  | Line.RI => env.rri
  | Line.DSR => env.rdsr
  | Line.CTS => env.rcts

/-- Boolean state of a line in a `TIOCMGET` word. -/
def lineState (word : Nat) (l : Line) : Bool :=
  decide (word &&& TIOCM l ≠ 0)

/-- The counter of the line differs between the two snapshots. -/
def counterChanged (ic oc : serial_icounter_struct) (l : Line) : Bool :=
  decide (oc.counter l ≠ ic.counter l)

/-- The line was requested, its state was read both before blocking and after
waking, and the two states differ. -/
def sampleChanged (bits : EventBits) (waitevent : Nat) (env : CycleEnv) (l : Line) : Bool :=
  hasLine bits waitevent l &&
    match env.pre l, env.post l with
    | some b, some a => lineState a l != lineState b l
    | _, _ => false

/-! ## Concrete runs -/

/-- Counters before blocking: cts 2, dsr 5, rng 0, dcd 1. -/
def c1_before : serial_icounter_struct := ⟨2, 5, 0, 1⟩

/-- Counters after waking: cts 2, dsr 6, rng 0, dcd 1. -/
def c1_after : serial_icounter_struct := ⟨2, 6, 0, 1⟩

/-- A wait for DSR and CTS. -/
def c1_mstate : modemstate := { modemstate.zero with waitevent := 4 ||| 8 }

/-- A cycle with both counter probes and the wait succeeding. -/
def c1_env : CycleEnv :=
  ⟨some c1_before, some 0, some 0, none, none, none, some c1_after, none, none, none, none⟩

/-- A wait for CTS. -/
def c2_mstate : modemstate := { modemstate.zero with waitevent := 8 }

/-- A cycle without counters in which CTS is low before blocking and high after waking. -/
def c2_env_flip : CycleEnv :=
  ⟨none, some 0, none, none, none, none, none, some TIOCM_CTS, none, none, none⟩

/-- A cycle without counters in which CTS is low before blocking and after waking. -/
def c2_env_same : CycleEnv :=
  ⟨none, some 0, none, none, none, none, none, some 0, none, none, none⟩

/-- An open handle with no wait in flight. -/
def idleHandle : serialhandle := ⟨3, none, 0, ERRMSG_OK⟩

/-- An open handle with a wait for DSR in flight. -/
def busyHandle : serialhandle :=
  ⟨3, some { modemstate.zero with waitevent := 4 }, 7, ERRMSG_OK⟩

/-- Thread-library answers that are all successes, around a worker with the given run. -/
def okEnv (cycles : List CycleEnv) (cancel : CancelPoint) : WaitEnv :=
  ⟨0, 0, 0, 7, cycles, cancel, 0, 0, 0⟩

/-- A cycle whose blocking wait fails with the given errno. -/
def failingCycle (e : Int) : CycleEnv :=
  ⟨none, some 0, none, none, none, some e, none, none, none, none, none⟩

/-! ## Bit sets and one wait cycle -/

theorem and_right_swap (a b c : Nat) : a &&& b &&& c = a &&& c &&& b := by
  rw [Nat.and_assoc, Nat.and_comm b c, ← Nat.and_assoc]

theorem maskOf_and_flag (bits : EventBits) (hb : bits.WF) (p : Line → Bool) (l : Line) :
    maskOf bits p &&& bits.flag l = if p l then bits.flag l else 0 := by
  obtain ⟨_, _, _, _, h1, h2, h3, h4, h5, h6⟩ := hb
  have h1c := Nat.and_comm bits.MODEMEVENT_RI bits.MODEMEVENT_DCD ▸ h1
  have h2c := Nat.and_comm bits.MODEMEVENT_DSR bits.MODEMEVENT_DCD ▸ h2
  have h3c := Nat.and_comm bits.MODEMEVENT_CTS bits.MODEMEVENT_DCD ▸ h3
  have h4c := Nat.and_comm bits.MODEMEVENT_DSR bits.MODEMEVENT_RI ▸ h4
  have h5c := Nat.and_comm bits.MODEMEVENT_CTS bits.MODEMEVENT_RI ▸ h5
  have h6c := Nat.and_comm bits.MODEMEVENT_CTS bits.MODEMEVENT_DSR ▸ h6
  cases l <;> simp only [maskOf, EventBits.flag, MODEMEVENT_NONE] <;>
    cases p Line.CTS <;> cases p Line.DSR <;> cases p Line.RI <;> cases p Line.DCD <;>
    simp [Nat.and_distrib_right, h1, h2, h3, h4, h5, h6, h1c, h2c, h3c, h4c, h5c, h6c]

theorem hasLine_maskOf_and (bits : EventBits) (hb : bits.WF) (p : Line → Bool) (w : Nat)
    (l : Line) : hasLine bits (maskOf bits p &&& w) l = (hasLine bits w l && p l) := by
  unfold hasLine
  rw [and_right_swap, maskOf_and_flag bits hb]
  cases p l <;> simp [Nat.and_comm]

theorem maskOf_and_all (bits : EventBits) (p : Line → Bool) :
    maskOf bits p &&& bits.all = maskOf bits p := by
  apply Nat.eq_of_testBit_eq
  intro i
  simp only [maskOf, EventBits.all, MODEMEVENT_NONE]
  cases p Line.CTS <;> cases p Line.DSR <;> cases p Line.RI <;> cases p Line.DCD <;>
    simp [Nat.testBit_and, Nat.testBit_or] <;>
    cases Nat.testBit bits.MODEMEVENT_CTS i <;> cases Nat.testBit bits.MODEMEVENT_DSR i <;>
    cases Nat.testBit bits.MODEMEVENT_RI i <;> cases Nat.testBit bits.MODEMEVENT_DCD i <;> simp

theorem and_all_of_mask (bits : EventBits) (p : Line → Bool) (w : Nat) :
    maskOf bits p &&& w &&& bits.all = maskOf bits p &&& w := by
  rw [and_right_swap, maskOf_and_all]

theorem sample_step (cond : Bool) (w w2 : Option Nat) (sig flag r : Nat) :
    (if sampleline (decide (sampleline cond w sig ≠ -1)) w2 sig ≠ -1 ∧ sampleline cond w sig ≠ -1
      then r ||| (if sampleline (decide (sampleline cond w sig ≠ -1)) w2 sig ≠ sampleline cond w sig
        then flag else MODEMEVENT_NONE)
      else r) =
    if (cond && match w, w2 with
        | some b, some a => (decide (a &&& sig ≠ 0) != decide (b &&& sig ≠ 0))
        | _, _ => false) then r ||| flag else r := by
  cases cond <;> cases w <;> cases w2 <;> simp [sampleline, getmodemsignal, MODEMEVENT_NONE]
  rename_i b a
  by_cases ha : a &&& sig = 0 <;> by_cases hb : b &&& sig = 0 <;> simp [ha, hb]

theorem waitformodemevent_counter (bits : EventBits) (mstate : modemstate) (env : CycleEnv)
    (ic oc : serial_icounter_struct) (hpre : env.icounter = some ic)
    (hwait : env.tiocmiwait = none) (hpost : env.ocounter = some oc) :
    (waitformodemevent bits mstate env).result
      = some (maskOf bits (counterChanged ic oc) &&& mstate.waitevent) ∧
    (waitformodemevent bits mstate env).mstate = mstate := by
  simp [waitformodemevent, hpre, hwait, hpost, maskOf, counterChanged,
    serial_icounter_struct.counter]

theorem or_right_swap (a b c : Nat) : a ||| b ||| c = a ||| c ||| b := by
  rw [Nat.or_assoc, Nat.or_comm b c, ← Nat.or_assoc]

theorem maskOf_sampling_order (bits : EventBits) (p : Line → Bool) :
    (let r : Nat := MODEMEVENT_NONE
     let r := if p Line.CTS then r ||| bits.MODEMEVENT_CTS else r
     let r := if p Line.DSR then r ||| bits.MODEMEVENT_DSR else r
     let r := if p Line.DCD then r ||| bits.MODEMEVENT_DCD else r
     let r := if p Line.RI then r ||| bits.MODEMEVENT_RI else r
     r) = maskOf bits p := by
  simp only [maskOf]
  cases p Line.CTS <;> cases p Line.DSR <;> cases p Line.DCD <;> cases p Line.RI <;>
    first
      | rfl
      | exact or_right_swap _ _ _

theorem waitformodemevent_sampling (bits : EventBits) (mstate : modemstate) (env : CycleEnv)
    (hwait : env.tiocmiwait = none) (hprobe : env.icounter = none ∨ env.ocounter = none) :
    (waitformodemevent bits mstate env).result
      = some (maskOf bits (sampleChanged bits mstate.waitevent env) &&& mstate.waitevent) ∧
    (waitformodemevent bits mstate env).mstate = mstate := by
  have hic : (if (env.icounter.isSome && env.ocounter.isNone) = true then false
      else env.icounter.isSome) = false := by
    rcases hprobe with h | h <;> simp [h]
  unfold waitformodemevent
  simp only [hwait, hic, sample_step]
  refine ⟨congrArg some (congrArg (fun r => r &&& mstate.waitevent) ?_), trivial⟩
  exact maskOf_sampling_order bits (sampleChanged bits mstate.waitevent env)

theorem waitformodemevent_transient (bits : EventBits) (mstate : modemstate) (env : CycleEnv)
    (e : Int) (hwait : env.tiocmiwait = some e)
    (he : e = EAGAIN ∨ e = EWOULDBLOCK ∨ e = EINTR) :
    (waitformodemevent bits mstate env).result = some MODEMEVENT_NONE ∧
    (waitformodemevent bits mstate env).mstate = mstate := by
  unfold waitformodemevent
  simp only [hwait, if_pos he, and_self]

theorem waitformodemevent_fatal (bits : EventBits) (mstate : modemstate) (env : CycleEnv)
    (e : Int) (hwait : env.tiocmiwait = some e)
    (he : ¬ (e = EAGAIN ∨ e = EWOULDBLOCK ∨ e = EINTR)) :
    (waitformodemevent bits mstate env).result = none ∧
    (waitformodemevent bits mstate env).mstate
      = { mstate with serialerror := ERRMSG_IOCTL, posixerrno := e } := by
  unfold waitformodemevent
  simp only [hwait, if_neg he, and_self]

theorem waitformodemevent_mstate_of_some (bits : EventBits) (mstate : modemstate)
    (env : CycleEnv) (m : Nat) (h : (waitformodemevent bits mstate env).result = some m) :
    (waitformodemevent bits mstate env).mstate = mstate := by
  cases hw : env.tiocmiwait with
  | none =>
    unfold waitformodemevent
    simp only [hw]
  | some e =>
    by_cases he : e = EAGAIN ∨ e = EWOULDBLOCK ∨ e = EINTR
    · exact (waitformodemevent_transient bits mstate env e hw he).2
    · rw [(waitformodemevent_fatal bits mstate env e hw he).1] at h
      cases h

theorem modemeventthread_cons_none (bits : EventBits) (mstate : modemstate) (c : CycleEnv)
    (cs : List CycleEnv) (cancel : CancelPoint)
    (h : (waitformodemevent bits mstate c).result = some MODEMEVENT_NONE) :
    modemeventthread bits mstate (c :: cs) cancel =
      ⟨(modemeventthread bits mstate cs cancel).mstate,
       (waitformodemevent bits mstate c).ops ++ (modemeventthread bits mstate cs cancel).ops,
       (modemeventthread bits mstate cs cancel).exit⟩ := by
  have hm := waitformodemevent_mstate_of_some bits mstate c _ h
  simp only [modemeventthread, h, hm, ne_eq, not_true_eq_false, if_false]

theorem modemeventthread_exits (bits : EventBits) (mstate : modemstate) (cycles : List CycleEnv)
    (cancel : CancelPoint) :
    ((modemeventthread bits mstate cycles cancel).exit = ThreadExit.matched →
      ∃ c ∈ cycles, ∃ m, (waitformodemevent bits mstate c).result = some m ∧
        m ≠ MODEMEVENT_NONE ∧
        (modemeventthread bits mstate cycles cancel).mstate.eventresult = m) ∧
    ((modemeventthread bits mstate cycles cancel).exit = ThreadExit.fatal →
      ∃ c ∈ cycles, (waitformodemevent bits mstate c).result = none) ∧
    ((modemeventthread bits mstate cycles cancel).exit = ThreadExit.cancelled →
      (∀ c ∈ cycles, (waitformodemevent bits mstate c).result = some MODEMEVENT_NONE) ∧
      (modemeventthread bits mstate cycles cancel).mstate.eventresult = mstate.eventresult) := by
  induction cycles with
  | nil => cases cancel <;> simp [modemeventthread]
  | cons c cs ih =>
    cases hr : (waitformodemevent bits mstate c).result with
    | none => simp [modemeventthread, hr]
    | some m =>
      by_cases hm : m = MODEMEVENT_NONE
      · subst hm
        rw [modemeventthread_cons_none bits mstate c cs cancel hr]
        obtain ⟨ih1, ih2, ih3⟩ := ih
        refine ⟨?_, ?_, ?_⟩
        · intro h
          obtain ⟨c2, hc2, m2, h2⟩ := ih1 h
          exact ⟨c2, List.mem_cons_of_mem _ hc2, m2, h2⟩
        · intro h
          obtain ⟨c2, hc2, h2⟩ := ih2 h
          exact ⟨c2, List.mem_cons_of_mem _ hc2, h2⟩
        · intro h
          obtain ⟨h3, h4⟩ := ih3 h
          refine ⟨?_, h4⟩
          intro c2 hc2
          rcases List.mem_cons.mp hc2 with rfl | hc2
          · exact hr
          · exact h3 c2 hc2
      · simp [modemeventthread, hr, hm]

/-- C1: in a cycle whose counter probe succeeds before and after blocking and whose
blocking wait succeeds, `waitformodemevent` returns a mask (not `-1`) that holds
exactly the requested lines whose counter differs between the two snapshots, no
other bit, and leaves the wait state as it was. -/
theorem C1_counter_strategy (bits : EventBits) (hb : bits.WF) (mstate : modemstate)
    (env : CycleEnv) (ic oc : serial_icounter_struct) (hpre : env.icounter = some ic)
    (hwait : env.tiocmiwait = none) (hpost : env.ocounter = some oc) :
    ∃ r, (waitformodemevent bits mstate env).result = some r ∧
      (∀ l, hasLine bits r l =
        (hasLine bits mstate.waitevent l && decide (ic.counter l ≠ oc.counter l))) ∧
      r &&& bits.all = r ∧
      (waitformodemevent bits mstate env).mstate = mstate := by
  obtain ⟨h1, h2⟩ := waitformodemevent_counter bits mstate env ic oc hpre hwait hpost
  refine ⟨_, h1, ?_, and_all_of_mask bits _ _, h2⟩
  intro l
  rw [hasLine_maskOf_and bits hb]
  simp only [counterChanged, ne_comm]

/-- Witness of C1: before={cts:2,dsr:5,rng:0,dcd:1}, after={cts:2,dsr:6,rng:0,dcd:1},
requested {DSR,CTS} gives {DSR}. -/
theorem C1_counter_strategy_witness :
    stdBits.WF ∧
    (waitformodemevent stdBits c1_mstate c1_env).result = some stdBits.MODEMEVENT_DSR ∧
    ∃ r, (waitformodemevent stdBits c1_mstate c1_env).result = some r ∧
      (∀ l, hasLine stdBits r l =
        (hasLine stdBits c1_mstate.waitevent l &&
          decide (c1_before.counter l ≠ c1_after.counter l))) ∧
      r &&& stdBits.all = r ∧
      (waitformodemevent stdBits c1_mstate c1_env).mstate = c1_mstate :=
  ⟨by decide, by decide,
    C1_counter_strategy stdBits (by decide) c1_mstate c1_env c1_before c1_after rfl rfl rfl⟩

/-- C2: in a cycle whose counter probe fails before blocking or after waking and
whose blocking wait succeeds, `waitformodemevent` returns a mask (not `-1`) that
holds exactly the requested lines whose state was read both before blocking and
after waking with two different values, and no other bit; a line with a failed
read is not in it, and the wait state (error kind and raw code included) stays
as it was. -/
theorem C2_sampling_fallback (bits : EventBits) (hb : bits.WF) (mstate : modemstate)
    (env : CycleEnv) (hwait : env.tiocmiwait = none)
    (hprobe : env.icounter = none ∨ env.ocounter = none) :
    ∃ r, (waitformodemevent bits mstate env).result = some r ∧
      (∀ l, hasLine bits r l =
        (hasLine bits mstate.waitevent l &&
          match env.pre l, env.post l with
          | some b, some a => lineState a l != lineState b l
          | _, _ => false)) ∧
      (∀ l, env.pre l = none ∨ env.post l = none → hasLine bits r l = false) ∧
      r &&& bits.all = r ∧
      (waitformodemevent bits mstate env).mstate = mstate := by
  obtain ⟨h1, h2⟩ := waitformodemevent_sampling bits mstate env hwait hprobe
  have key : ∀ l, hasLine bits
      (maskOf bits (sampleChanged bits mstate.waitevent env) &&& mstate.waitevent) l =
        (hasLine bits mstate.waitevent l &&
          match env.pre l, env.post l with
          | some b, some a => lineState a l != lineState b l
          | _, _ => false) := by
    intro l
    rw [hasLine_maskOf_and bits hb]
    simp only [sampleChanged]
    cases hasLine bits mstate.waitevent l <;> simp
  refine ⟨_, h1, key, ?_, and_all_of_mask bits _ _, h2⟩
  intro l hl
  rw [key l]
  rcases hl with hl | hl
  · simp [hl]
  · rw [hl]
    cases env.pre l <;> simp

/-- Witness of C2: before={cts:false}, after={cts:true}, requested {CTS} gives
{CTS}; before={cts:false}, after={cts:false} gives {}. -/
theorem C2_sampling_fallback_witness :
    stdBits.WF ∧
    (waitformodemevent stdBits c2_mstate c2_env_flip).result = some stdBits.MODEMEVENT_CTS ∧
    (waitformodemevent stdBits c2_mstate c2_env_same).result = some MODEMEVENT_NONE ∧
    (∃ r, (waitformodemevent stdBits c2_mstate c2_env_flip).result = some r ∧
      (∀ l, hasLine stdBits r l =
        (hasLine stdBits c2_mstate.waitevent l &&
          match c2_env_flip.pre l, c2_env_flip.post l with
          | some b, some a => lineState a l != lineState b l
          | _, _ => false)) ∧
      (∀ l, c2_env_flip.pre l = none ∨ c2_env_flip.post l = none → hasLine stdBits r l = false) ∧
      r &&& stdBits.all = r ∧
      (waitformodemevent stdBits c2_mstate c2_env_flip).mstate = c2_mstate) :=
  ⟨by decide, by decide, by decide,
    C2_sampling_fallback stdBits (by decide) c2_mstate c2_env_flip rfl (Or.inl rfl)⟩

/-- C10: when the blocking wait of a cycle fails with errno EAGAIN, EWOULDBLOCK or
EINTR, `waitformodemevent` returns `MODEMEVENT_NONE` and leaves the wait state as
it was (no error kind, no raw code); `modemeventthread` then writes nothing and
goes on with the next cycle; and a worker ends as matched only on a cycle that
returned a non-empty mask (which it writes), as fatal only on a cycle that
returned `-1`, and otherwise only by cancellation, with no result written. -/
theorem C10_transient_is_spurious_wake (bits : EventBits) (mstate : modemstate)
    (env : CycleEnv) (e : Int) (hwait : env.tiocmiwait = some e)
    (he : e = EAGAIN ∨ e = EWOULDBLOCK ∨ e = EINTR) :
    (waitformodemevent bits mstate env).result = some MODEMEVENT_NONE ∧
    (waitformodemevent bits mstate env).mstate = mstate ∧
    (∀ cs cancel, modemeventthread bits mstate (env :: cs) cancel =
      ⟨(modemeventthread bits mstate cs cancel).mstate,
       (waitformodemevent bits mstate env).ops ++ (modemeventthread bits mstate cs cancel).ops,
       (modemeventthread bits mstate cs cancel).exit⟩) ∧
    (∀ cycles cancel,
      ((modemeventthread bits mstate cycles cancel).exit = ThreadExit.matched →
        ∃ c ∈ cycles, ∃ m, (waitformodemevent bits mstate c).result = some m ∧
          m ≠ MODEMEVENT_NONE ∧
          (modemeventthread bits mstate cycles cancel).mstate.eventresult = m) ∧
      ((modemeventthread bits mstate cycles cancel).exit = ThreadExit.fatal →
        ∃ c ∈ cycles, (waitformodemevent bits mstate c).result = none) ∧
      ((modemeventthread bits mstate cycles cancel).exit = ThreadExit.cancelled →
        (∀ c ∈ cycles, (waitformodemevent bits mstate c).result = some MODEMEVENT_NONE) ∧
        (modemeventthread bits mstate cycles cancel).mstate.eventresult
          = mstate.eventresult)) := by
  obtain ⟨h1, h2⟩ := waitformodemevent_transient bits mstate env e hwait he
  exact ⟨h1, h2, fun cs cancel => modemeventthread_cons_none bits mstate env cs cancel h1,
    fun cycles cancel => modemeventthread_exits bits mstate cycles cancel⟩

/-! ## The worker -/

theorem modemeventthread_all_none (bits : EventBits) (mstate : modemstate)
    (cycles : List CycleEnv) (cancel : CancelPoint)
    (h : ∀ c ∈ cycles, (waitformodemevent bits mstate c).result = some MODEMEVENT_NONE) :
    (modemeventthread bits mstate cycles cancel).mstate
      = (modemeventthread bits mstate [] cancel).mstate ∧
    (modemeventthread bits mstate cycles cancel).exit = ThreadExit.cancelled := by
  induction cycles with
  | nil => cases cancel <;> simp [modemeventthread]
  | cons c cs ih =>
    rw [modemeventthread_cons_none bits mstate c cs cancel (h c (List.mem_cons_self _ _))]
    exact ih (fun c2 hc2 => h c2 (List.mem_cons_of_mem _ hc2))

/-- The slot after a call of `serial_waitformodemevent` that found it empty: it is
empty again, except when the unlock of line 440 fails, which returns with the
new wait state still installed. -/
theorem serial_waitformodemevent_slot (bits : EventBits) (env : WaitEnv) (s : State)
    (h : serialhandle) (event : Nat) (hh : s.handle = some h) (hfd : h.fd ≠ -1)
    (hslot : h.modemstate = none) :
    ∃ h2, (serial_waitformodemevent bits env s event).2.handle = some h2 ∧
      h2.modemstate =
        if env.lock1 ≠ -1 ∧ event &&& bits.all ≠ 0 ∧ env.unlock1 = -1
        then some { modemstate.zero with waitevent := event } else none := by
  by_cases hl : env.lock1 = -1
  · simp [serial_waitformodemevent, hh, hfd, hslot, hl, entercritsection, serial_seterror,
      Ctx.toState]
  · by_cases hev : event &&& bits.all = 0
    · by_cases hu : env.unlock1 = -1 <;>
        simp [serial_waitformodemevent, hh, hfd, hslot, hl, hev, hu, entercritsection,
          exitcritsection, serial_seterror, Ctx.toState]
    · by_cases hu : env.unlock1 = -1
      · simp [serial_waitformodemevent, hh, hfd, hslot, hl, hev, hu, entercritsection,
          exitcritsection, serial_seterror, Ctx.toState]
      · by_cases hc : env.create = 0 <;> by_cases hj : env.join = 0 <;>
          by_cases hl2 : env.lock2 = -1 <;> by_cases hu2 : env.unlock2 = -1 <;>
          by_cases hs : (modemeventthread bits { modemstate.zero with waitevent := event }
            env.cycles env.cancel).mstate.serialerror = ERRMSG_OK <;>
          simp [serial_waitformodemevent, hh, hfd, hslot, hl, hev, hu, hc, hj, hl2, hu2, hs,
            entercritsection, exitcritsection, serial_seterror, Ctx.toState]

/-- C5 (amended): for an open handle and a mask with none of DCD, RI, DSR, CTS,
the call makes no library call other than locking and unlocking the mutex (no
blocking wait, no `pthread_create`) and leaves the slot as it was, whatever the
slot holds and whatever the lock calls answer; and when the slot is empty and
neither the lock acquire nor the release fails, it returns MODEMEVENT_NONE after
one lock and one unlock, with the handle and errno unchanged. -/
theorem C5_empty_mask (bits : EventBits) (env : WaitEnv) (s : State) (h : serialhandle)
    (event : Nat) (hh : s.handle = some h) (hfd : h.fd ≠ -1)
    (hev : event &&& bits.all = 0) :
    (∃ e ops, (serial_waitformodemevent bits env s event).2.handle
        = some { h with errmsg := e } ∧
      (serial_waitformodemevent bits env s event).2.trace = s.trace ++ ops ∧
      ∀ op ∈ ops, op = Op.pthread_mutex_lock ∨ op = Op.pthread_mutex_unlock) ∧
    (h.modemstate = none → env.lock1 ≠ -1 → env.unlock1 ≠ -1 →
      serial_waitformodemevent bits env s event =
        (some MODEMEVENT_NONE,
          ⟨some h, s.errno, s.trace ++ [Op.pthread_mutex_lock, Op.pthread_mutex_unlock]⟩)) := by
  constructor
  · by_cases hl : env.lock1 = -1
    · refine ⟨ERRMSG_MUTEXLOCK, [Op.pthread_mutex_lock], ?_, ?_, ?_⟩ <;>
        simp [serial_waitformodemevent, hh, hfd, hl, entercritsection, serial_seterror,
          Ctx.toState]
    · cases hslot : h.modemstate with
      | some ms =>
        refine ⟨ERRMSG_MODEMEVENT_RUNNING, [Op.pthread_mutex_lock, Op.pthread_mutex_unlock],
          ?_, ?_, ?_⟩ <;>
          by_cases hu : env.unlock1 = -1 <;>
          simp [serial_waitformodemevent, hh, hfd, hslot, hl, hu, entercritsection,
            exitcritsection, serial_seterror, Ctx.toState]
      | none =>
        by_cases hu : env.unlock1 = -1
        · refine ⟨ERRMSG_MUTEXUNLOCK, [Op.pthread_mutex_lock, Op.pthread_mutex_unlock],
            ?_, ?_, ?_⟩ <;>
            simp [serial_waitformodemevent, hh, hfd, hslot, hl, hu, hev, entercritsection,
              exitcritsection, serial_seterror, Ctx.toState]
        · refine ⟨h.errmsg, [Op.pthread_mutex_lock, Op.pthread_mutex_unlock], ?_, ?_, ?_⟩
          · simp [serial_waitformodemevent, hh, hfd, hslot, hl, hu, hev, entercritsection,
              exitcritsection, serial_seterror, Ctx.toState]
            cases h
            simp_all
          · simp [serial_waitformodemevent, hh, hfd, hslot, hl, hu, hev, entercritsection,
              exitcritsection, serial_seterror, Ctx.toState]
          · simp
  · intro hslot hl hu
    simp [serial_waitformodemevent, hh, hfd, hslot, hl, hu, hev, entercritsection,
      exitcritsection, serial_seterror, Ctx.toState]

/-- Witness of C5: the mask 16 holds none of the four flags 1, 2, 4, 8. -/
theorem C5_empty_mask_witness :
    idleHandle.fd ≠ -1 ∧ 16 &&& stdBits.all = 0 ∧
    (∃ e ops, (serial_waitformodemevent stdBits (okEnv [] CancelPoint.clean)
        ⟨some idleHandle, 0, []⟩ 16).2.handle = some { idleHandle with errmsg := e } ∧
      (serial_waitformodemevent stdBits (okEnv [] CancelPoint.clean)
        ⟨some idleHandle, 0, []⟩ 16).2.trace = [] ++ ops ∧
      ∀ op ∈ ops, op = Op.pthread_mutex_lock ∨ op = Op.pthread_mutex_unlock) ∧
    (idleHandle.modemstate = none → (okEnv [] CancelPoint.clean).lock1 ≠ -1 →
      (okEnv [] CancelPoint.clean).unlock1 ≠ -1 →
      serial_waitformodemevent stdBits (okEnv [] CancelPoint.clean)
        ⟨some idleHandle, 0, []⟩ 16 =
        (some MODEMEVENT_NONE,
          ⟨some idleHandle, 0, [] ++ [Op.pthread_mutex_lock, Op.pthread_mutex_unlock]⟩)) :=
  ⟨by decide, by decide,
    C5_empty_mask stdBits (okEnv [] CancelPoint.clean) ⟨some idleHandle, 0, []⟩ idleHandle 16
      rfl (by decide) (by decide)⟩

/-- Counterexample to C5 as stated: with an empty mask and every lock call
succeeding, the call on a handle whose slot is occupied returns `-1` with
ERRMSG_MODEMEVENT_RUNNING, and the call on an idle handle returns MODEMEVENT_NONE
only after locking the mutex. -/
theorem C5_counterexample :
    busyHandle.fd ≠ -1 ∧ 0 &&& stdBits.all = 0 ∧
    serial_waitformodemevent stdBits (okEnv [] CancelPoint.clean) ⟨some busyHandle, 0, []⟩ 0 =
      (none, ⟨some { busyHandle with errmsg := ERRMSG_MODEMEVENT_RUNNING }, EINVAL,
        [Op.pthread_mutex_lock, Op.pthread_mutex_unlock]⟩) ∧
    Op.pthread_mutex_lock ∈
      (serial_waitformodemevent stdBits (okEnv [] CancelPoint.clean)
        ⟨some idleHandle, 0, []⟩ 0).2.trace := by
  decide

/-- What `serial_waitformodemevent` does after a worker was spawned and joined with
every thread-library call succeeding: the outcome read from the wait state. -/
theorem serial_waitformodemevent_joined (bits : EventBits) (env : WaitEnv) (s : State)
    (h : serialhandle) (event : Nat) (hh : s.handle = some h) (hfd : h.fd ≠ -1)
    (hslot : h.modemstate = none) (hev : event &&& bits.all ≠ 0)
    (hl1 : env.lock1 = 0) (hu1 : env.unlock1 = 0) (hc : env.create = 0) (hj : env.join = 0)
    (hl2 : env.lock2 = 0) (hu2 : env.unlock2 = 0) (t : ThreadResult)
    (ht : modemeventthread bits { modemstate.zero with waitevent := event }
      env.cycles env.cancel = t) :
    (serial_waitformodemevent bits env s event).1 =
      (if t.mstate.serialerror ≠ ERRMSG_OK then none
        else some (t.mstate.eventresult &&& event)) ∧
    (serial_waitformodemevent bits env s event).2.handle =
      some { h with modemthread := env.tid,
                    errmsg := if t.mstate.serialerror ≠ ERRMSG_OK then t.mstate.serialerror
                      else h.errmsg } ∧
    (serial_waitformodemevent bits env s event).2.errno =
      (if t.mstate.serialerror ≠ ERRMSG_OK then t.mstate.posixerrno else s.errno) := by
  by_cases hs : t.mstate.serialerror = ERRMSG_OK
  · simp [serial_waitformodemevent, hh, hfd, hslot, hev, hl1, hu1, hc, hj, hl2, hu2, ht, hs,
      entercritsection, exitcritsection, serial_seterror, Ctx.toState]
  · simp [serial_waitformodemevent, hh, hfd, hslot, hev, hl1, hu1, hc, hj, hl2, hu2, ht, hs,
      entercritsection, exitcritsection, serial_seterror, Ctx.toState]

/-- C7: on an open handle with an empty slot and a mask requesting a line, with
lock, create and join succeeding, if no cycle ends the worker and it is cancelled
before any write to the wait state, the call returns MODEMEVENT_NONE, records no
error (error kind and errno stay as they were), and the slot is empty. -/
theorem C7_clean_cancellation (bits : EventBits) (env : WaitEnv) (s : State)
    (h : serialhandle) (event : Nat) (hh : s.handle = some h) (hfd : h.fd ≠ -1)
    (hslot : h.modemstate = none) (hev : event &&& bits.all ≠ 0)
    (hl1 : env.lock1 = 0) (hu1 : env.unlock1 = 0) (hc : env.create = 0) (hj : env.join = 0)
    (hl2 : env.lock2 = 0) (hu2 : env.unlock2 = 0)
    (hcycles : ∀ c ∈ env.cycles,
      (waitformodemevent bits { modemstate.zero with waitevent := event } c).result
        = some MODEMEVENT_NONE)
    (hcancel : env.cancel = CancelPoint.clean) :
    (modemeventthread bits { modemstate.zero with waitevent := event }
      env.cycles env.cancel).exit = ThreadExit.cancelled ∧
    (modemeventthread bits { modemstate.zero with waitevent := event }
      env.cycles env.cancel).mstate = { modemstate.zero with waitevent := event } ∧
    (serial_waitformodemevent bits env s event).1 = some MODEMEVENT_NONE ∧
    (serial_waitformodemevent bits env s event).2.handle
      = some { h with modemthread := env.tid } ∧
    (serial_waitformodemevent bits env s event).2.errno = s.errno := by
  obtain ⟨hm, hx⟩ := modemeventthread_all_none bits { modemstate.zero with waitevent := event }
    env.cycles env.cancel hcycles
  rw [hcancel] at hm
  simp only [modemeventthread] at hm
  rw [hcancel] at hx
  obtain ⟨r1, r2, r3⟩ := serial_waitformodemevent_joined bits env s h event hh hfd hslot hev
    hl1 hu1 hc hj hl2 hu2 _ rfl
  rw [hcancel] at r1 r2 r3 ⊢
  rw [hm] at r1 r2 r3
  refine ⟨hx, hm, ?_, ?_, ?_⟩
  · simpa [modemstate.zero, MODEMEVENT_NONE] using r1
  · simpa [modemstate.zero] using r2
  · simpa [modemstate.zero] using r3

/-- Witness of C7: a wait for CTS that an EINTR wakes once and that is then cancelled. -/
theorem C7_clean_cancellation_witness :
    idleHandle.fd ≠ -1 ∧ 8 &&& stdBits.all ≠ 0 ∧
    (modemeventthread stdBits { modemstate.zero with waitevent := 8 }
      (okEnv [failingCycle EINTR] CancelPoint.clean).cycles
      (okEnv [failingCycle EINTR] CancelPoint.clean).cancel).exit = ThreadExit.cancelled ∧
    (modemeventthread stdBits { modemstate.zero with waitevent := 8 }
      (okEnv [failingCycle EINTR] CancelPoint.clean).cycles
      (okEnv [failingCycle EINTR] CancelPoint.clean).cancel).mstate
        = { modemstate.zero with waitevent := 8 } ∧
    (serial_waitformodemevent stdBits (okEnv [failingCycle EINTR] CancelPoint.clean)
      ⟨some idleHandle, 0, []⟩ 8).1 = some MODEMEVENT_NONE ∧
    (serial_waitformodemevent stdBits (okEnv [failingCycle EINTR] CancelPoint.clean)
      ⟨some idleHandle, 0, []⟩ 8).2.handle = some { idleHandle with modemthread := 7 } ∧
    (serial_waitformodemevent stdBits (okEnv [failingCycle EINTR] CancelPoint.clean)
      ⟨some idleHandle, 0, []⟩ 8).2.errno = 0 :=
  ⟨by decide, by decide,
    C7_clean_cancellation stdBits (okEnv [failingCycle EINTR] CancelPoint.clean)
      ⟨some idleHandle, 0, []⟩ idleHandle 8 rfl (by decide) rfl (by decide)
      rfl rfl rfl rfl rfl rfl (by decide) rfl⟩

/-- Whatever the lock and cancel calls answer, `serial_abortwaitformodemevent`
leaves the slot, the descriptor and the thread id of a handle as they were. -/
theorem serial_abortwaitformodemevent_frame (env : AbortEnv) (s : State) (h : serialhandle)
    (hh : s.handle = some h) :
    ∃ h2, (serial_abortwaitformodemevent env s).2.handle = some h2 ∧
      h2.modemstate = h.modemstate ∧ h2.fd = h.fd ∧ h2.modemthread = h.modemthread := by
  by_cases hfd : h.fd = -1
  · simp [serial_abortwaitformodemevent, hh, hfd, serial_seterror, Ctx.toState]
  · by_cases hl : env.lock = -1
    · simp [serial_abortwaitformodemevent, hh, hfd, hl, entercritsection, serial_seterror,
        Ctx.toState]
    · by_cases hu : env.unlock = -1 <;> by_cases hc : env.cancel = -1 <;>
        cases hslot : h.modemstate <;>
        simp [serial_abortwaitformodemevent, hh, hfd, hl, hu, hc, hslot, entercritsection,
          exitcritsection, serial_seterror, Ctx.toState]

/-- C8: on an open handle with an empty slot and the lock calls succeeding,
`serial_abortwaitformodemevent` returns 0 after one lock and one unlock, calls no
`pthread_cancel`, and leaves the handle (slot and recorded error included) and
errno as they were; a second call right after it returns 0 again and leaves the
same handle and errno. -/
theorem C8_abort_without_wait (env env2 : AbortEnv) (s : State) (h : serialhandle)
    (hh : s.handle = some h) (hfd : h.fd ≠ -1) (hslot : h.modemstate = none)
    (hl : env.lock = 0) (hu : env.unlock = 0) (hl2 : env2.lock = 0) (hu2 : env2.unlock = 0) :
    serial_abortwaitformodemevent env s =
      (0, ⟨some h, s.errno, s.trace ++ [Op.pthread_mutex_lock, Op.pthread_mutex_unlock]⟩) ∧
    serial_abortwaitformodemevent env2 (serial_abortwaitformodemevent env s).2 =
      (0, ⟨some h, s.errno, s.trace ++ [Op.pthread_mutex_lock, Op.pthread_mutex_unlock,
        Op.pthread_mutex_lock, Op.pthread_mutex_unlock]⟩) := by
  have h1 : serial_abortwaitformodemevent env s =
      (0, ⟨some h, s.errno, s.trace ++ [Op.pthread_mutex_lock, Op.pthread_mutex_unlock]⟩) := by
    simp [serial_abortwaitformodemevent, hh, hfd, hslot, hl, hu, entercritsection,
      exitcritsection, Ctx.toState]
  refine ⟨h1, ?_⟩
  rw [h1]
  simp [serial_abortwaitformodemevent, hfd, hslot, hl2, hu2, entercritsection,
    exitcritsection, Ctx.toState]

/-- Witness of C8: two aborts in a row on an idle handle. -/
theorem C8_abort_without_wait_witness :
    idleHandle.fd ≠ -1 ∧
    serial_abortwaitformodemevent ⟨0, 0, 0⟩ ⟨some idleHandle, 0, []⟩ =
      (0, ⟨some idleHandle, 0, [] ++ [Op.pthread_mutex_lock, Op.pthread_mutex_unlock]⟩) ∧
    serial_abortwaitformodemevent ⟨0, 0, 0⟩
        (serial_abortwaitformodemevent ⟨0, 0, 0⟩ ⟨some idleHandle, 0, []⟩).2 =
      (0, ⟨some idleHandle, 0, [] ++ [Op.pthread_mutex_lock, Op.pthread_mutex_unlock,
        Op.pthread_mutex_lock, Op.pthread_mutex_unlock]⟩) :=
  ⟨by decide,
    C8_abort_without_wait ⟨0, 0, 0⟩ ⟨0, 0, 0⟩ ⟨some idleHandle, 0, []⟩ idleHandle rfl
      (by decide) rfl rfl rfl rfl rfl⟩

/-- C9 (failing input): on an open handle with a wait in flight and the lock calls
succeeding, `pthread_cancel` answers the error number ESRCH; the call returns 0
and records no error. The slot is as it was. -/
theorem C9_cancel_failure_unreported :
    busyHandle.fd ≠ -1 ∧ busyHandle.modemstate.isSome = true ∧ ESRCH ≠ 0 ∧
    serial_abortwaitformodemevent ⟨0, 0, ESRCH⟩ ⟨some busyHandle, 0, []⟩ =
      (0, ⟨some busyHandle, 0,
        [Op.pthread_mutex_lock, Op.pthread_mutex_unlock, Op.pthread_cancel]⟩) := by
  decide

/-- Witness of C10: a wait for CTS whose blocking wait is interrupted (EINTR). -/
theorem C10_transient_is_spurious_wake_witness :
    (waitformodemevent stdBits c2_mstate (failingCycle EINTR)).result = some MODEMEVENT_NONE ∧
    (waitformodemevent stdBits c2_mstate (failingCycle EINTR)).mstate = c2_mstate ∧
    (∀ cs cancel, modemeventthread stdBits c2_mstate (failingCycle EINTR :: cs) cancel =
      ⟨(modemeventthread stdBits c2_mstate cs cancel).mstate,
       (waitformodemevent stdBits c2_mstate (failingCycle EINTR)).ops
        ++ (modemeventthread stdBits c2_mstate cs cancel).ops,
       (modemeventthread stdBits c2_mstate cs cancel).exit⟩) ∧
    (∀ cycles cancel,
      ((modemeventthread stdBits c2_mstate cycles cancel).exit = ThreadExit.matched →
        ∃ c ∈ cycles, ∃ m, (waitformodemevent stdBits c2_mstate c).result = some m ∧
          m ≠ MODEMEVENT_NONE ∧
          (modemeventthread stdBits c2_mstate cycles cancel).mstate.eventresult = m) ∧
      ((modemeventthread stdBits c2_mstate cycles cancel).exit = ThreadExit.fatal →
        ∃ c ∈ cycles, (waitformodemevent stdBits c2_mstate c).result = none) ∧
      ((modemeventthread stdBits c2_mstate cycles cancel).exit = ThreadExit.cancelled →
        (∀ c ∈ cycles, (waitformodemevent stdBits c2_mstate c).result = some MODEMEVENT_NONE) ∧
        (modemeventthread stdBits c2_mstate cycles cancel).mstate.eventresult
          = c2_mstate.eventresult)) :=
  C10_transient_is_spurious_wake stdBits c2_mstate (failingCycle EINTR) EINTR rfl
    (Or.inr (Or.inr rfl))

/-- With a wait in flight and the lock calls succeeding, the answer of
`pthread_cancel` is reported as a failure exactly when it is `-1`. -/
theorem serial_abortwaitformodemevent_active (env : AbortEnv) (s : State) (h : serialhandle)
    (ms : modemstate) (hh : s.handle = some h) (hfd : h.fd ≠ -1)
    (hslot : h.modemstate = some ms) (hl : env.lock = 0) (hu : env.unlock = 0) :
    serial_abortwaitformodemevent env s =
      if env.cancel = -1 then
        (-1, ⟨some { h with errmsg := ERRMSG_PTHREADCANCEL }, s.errno,
          s.trace ++ [Op.pthread_mutex_lock, Op.pthread_mutex_unlock, Op.pthread_cancel]⟩)
      else
        (0, ⟨some h, s.errno,
          s.trace ++ [Op.pthread_mutex_lock, Op.pthread_mutex_unlock, Op.pthread_cancel]⟩) := by
  by_cases hc : env.cancel = -1 <;>
    simp [serial_abortwaitformodemevent, hh, hfd, hslot, hl, hu, hc, entercritsection,
      exitcritsection, serial_seterror, Ctx.toState]

end NSerial
